import Mathlib

/-!
Shallow embedding of the BookManagementSystem repository (FastAPI + SQLAlchemy +
Redis), covering the parts referenced by the claims:

* `app/services/cache_service.py`   — `CacheService` (get/set/delete/clear_pattern)
* `app/services/recommendation_service.py` — `get_recommendations`,
  `invalidate_recommendations_cache`
* `app/services/book_service.py`    — `create_book`, `get_book_by_id`,
  `update_book`, `delete_book`, `get_book_summary`
* `app/services/review_service.py`  — `create_review`, `get_review_by_id`,
  `update_review`, `delete_review`
* `app/services/auth_service.py`    — `authenticate_user`, `login`
* `app/api/endpoints/books.py`      — the four mutation endpoints that call
  `invalidate_recommendations_cache`

Modelling conventions:
* Machine integers are `Nat`/`Int`; SQL `AVG` is an exact rational (`ℚ`),
  `NULL` is `Option`.  Python `float(...)` of such an average is modelled as
  the rational itself (the claims only involve exact small averages like 4.0).
* Fallible code returns `Res α`: `ok` for a normal return, `err code msg` for
  a raised `HTTPException(status_code, detail)`, `exn msg` for any other
  raised exception.  A Python `try/except` catching everything is a `match`
  whose `exn` branch produces the `except` block's value.
* The Redis client is `Option RedisState`: `none` when `connect` failed or was
  never called (`self.redis_client = None`); otherwise a key/value store plus
  a `failing` flag meaning every backend call raises (connection lost).  TTL
  is abstracted: entries present in `store` are the unexpired ones.
* Values cached by the code are always JSON-serialised recommendation lists;
  `json.dumps`/`json.loads` round-trip such values, so the cache value type is
  the list itself.  The truthiness test `if value:` in `CacheService.get` is
  true for every stored entry because the JSON text of a list is the nonempty
  string `"[...]"`/`"[]"`.
-/

/-- Result of a Python call: normal return, raised `HTTPException`, or any
other raised exception. -/
inductive Res (α : Type) where
  | ok : α → Res α
  | err : Nat → String → Res α
  | exn : String → Res α
deriving Repr, DecidableEq

instance : Monad Res where
  pure := Res.ok
  bind := fun r f =>
    match r with
    | .ok a => f a
    | .err c m => .err c m
    | .exn m => .exn m

@[simp] theorem Res.ok_bind {α β : Type} (a : α) (f : α → Res β) :
    (Res.ok a >>= f) = f a := rfl

@[simp] theorem Res.err_bind {α β : Type} (c : Nat) (m : String) (f : α → Res β) :
    ((Res.err c m : Res α) >>= f) = Res.err c m := rfl

@[simp] theorem Res.exn_bind {α β : Type} (m : String) (f : α → Res β) :
    ((Res.exn m : Res α) >>= f) = Res.exn m := rfl

/-- SQLAlchemy `Result.scalar_one_or_none()`: `None` for zero rows, the row for
exactly one, and a raised `MultipleResultsFound` for more than one. -/
def scalarOneOrNone {α : Type} : List α → Res (Option α)
  | [] => .ok none
  | [a] => .ok (some a)
  | _ :: _ :: _ => .exn "MultipleResultsFound"

/-! ## Data model (`app/models/{book,review,user}.py`) -/

/-- Row of the `books` table. -/
structure Book where
  id : Nat
  title : String
  author : String
  genre : String
  year_published : Int
  summary : Option String
deriving Repr, DecidableEq

/-- Row of the `reviews` table. -/
structure Review where
  id : Nat
  book_id : Nat
  user_id : Nat
  review_text : String
  rating : Nat
deriving Repr, DecidableEq

/-- `UserRole` enumeration. -/
inductive UserRole where
  | admin : UserRole
  | user : UserRole
deriving Repr, DecidableEq

/-- Row of the `users` table. -/
structure User where
  id : Nat
  email : String
  username : String
  hashed_password : String
  full_name : Option String
  role : UserRole
  is_active : Bool
deriving Repr, DecidableEq

/-- The relational store: the three tables used by the claims. -/
structure DB where
  books : List Book
  reviews : List Review
  users : List User
deriving Repr, DecidableEq

/-! ## Cache backend and `CacheService` (`app/services/cache_service.py`) -/

/-- A recommendation entry as built by `get_recommendations` (one JSON dict of
the cached list): `average_rating` is `None` exactly when the Python value is
falsy (`NULL` average, i.e. zero reviews — ratings are in `[1,5]` so a present
average is never `0`). -/
structure RecEntry where
  id : Nat
  title : String
  author : String
  genre : String
  average_rating : Option ℚ
  total_reviews : Nat
deriving Repr, DecidableEq

/-- The only values the code ever caches: JSON recommendation lists. -/
def CacheVal : Type := List RecEntry

instance : DecidableEq CacheVal := inferInstanceAs (DecidableEq (List RecEntry))

/-- State of a connected Redis backend: the unexpired entries, plus a flag
meaning the connection is broken so every backend call raises. -/
structure RedisState where
  store : List (String × CacheVal)
  failing : Bool
deriving DecidableEq

/-- Redis glob-style pattern matching (as used by `SCAN ... MATCH pattern`):
`*` matches any sequence, `?` matches one character, anything else literally. -/
def globMatch (p s : List Char) : Bool :=
  match p, s with
  | [], s => s.isEmpty
  | c :: ps, s =>
    if c = '*' then
      match s with
      | [] => globMatch ps []
      | _ :: cs => globMatch ps s || globMatch (c :: ps) cs
    else
      match s with
      | [] => false
      | d :: ds => if c = '?' then globMatch ps ds else (c = d) && globMatch ps ds
termination_by (p.length, s.length)

/-- Raw Redis GET: raises when the connection is broken. -/
def redisGet (r : RedisState) (key : String) : Res (Option CacheVal) :=
  if r.failing then .exn "ConnectionError" else .ok (r.store.lookup key)

/-- Raw Redis SETEX: raises when the connection is broken; overwrites the key. -/
def redisSetex (r : RedisState) (key : String) (v : CacheVal) : Res RedisState :=
  if r.failing then .exn "ConnectionError"
  else .ok ⟨(key, v) :: r.store.filter (fun kv => kv.1 != key), r.failing⟩

/-- Raw Redis DEL of one key: raises when the connection is broken. -/
def redisDel (r : RedisState) (key : String) : Res RedisState :=
  if r.failing then .exn "ConnectionError"
  else .ok ⟨r.store.filter (fun kv => kv.1 != key), r.failing⟩

/-- Raw Redis SCAN+DEL of every key matching a glob pattern.  The cursor loop
of `clear_pattern` (batches of 100 until the cursor returns 0) visits every
key exactly once, so its net effect on the store is a single filter. -/
def redisDelPattern (r : RedisState) (pat : String) : Res RedisState :=
  if r.failing then .exn "ConnectionError"
  else .ok ⟨r.store.filter (fun kv => !globMatch pat.toList kv.1.toList), r.failing⟩

/-- `CacheService.get`: `None` when the client is absent; otherwise the backend
value, any raised exception caught and turned into `None`. -/
def cacheGet (c : Option RedisState) (key : String) : Res (Option CacheVal) :=
  match c with
  | none => .ok none
  | some r =>
    match redisGet r key with
    | .ok v => .ok v
    | .err _ _ => .ok none
    | .exn _ => .ok none

/-- `CacheService.set`: returns the success flag and the new client state;
`False` (state unchanged) when the client is absent or the backend raises. -/
def cacheSet (c : Option RedisState) (key : String) (v : CacheVal) :
    Res (Bool × Option RedisState) :=
  match c with
  | none => .ok (false, none)
  | some r =>
    match redisSetex r key v with
    | .ok r' => .ok (true, some r')
    | .err _ _ => .ok (false, some r)
    | .exn _ => .ok (false, some r)

/-- `CacheService.delete`: `False` (state unchanged) when the client is absent
or the backend raises. -/
def cacheDelete (c : Option RedisState) (key : String) :
    Res (Bool × Option RedisState) :=
  match c with
  | none => .ok (false, none)
  | some r =>
    match redisDel r key with
    | .ok r' => .ok (true, some r')
    | .err _ _ => .ok (false, some r)
    | .exn _ => .ok (false, some r)

/-- `CacheService.clear_pattern`: `False` (state unchanged) when the client is
absent or the backend raises. -/
def cacheClearPattern (c : Option RedisState) (pat : String) :
    Res (Bool × Option RedisState) :=
  match c with
  | none => .ok (false, none)
  | some r =>
    match redisDelPattern r pat with
    | .ok r' => .ok (true, some r')
    | .err _ _ => .ok (false, some r)
    | .exn _ => .ok (false, some r)

/-! ## Recommendation service (`app/services/recommendation_service.py`) -/

/-- Python string interpolation of the `genre` parameter into the f-string:
`None` renders as the literal text `"None"`. -/
def pyStr : Option String → String
  | none => "None"
  | some s => s

/-- The cache key `f"recommendations:genre={genre}:limit={limit}"`. -/
def cacheKey (genre : Option String) (limit : Nat) : String :=
  "recommendations:genre=" ++ pyStr genre ++ ":limit=" ++ toString limit

/-- Python truthiness of the optional `genre` string (`if genre:`): false for
`None` and for the empty string. -/
def strTruthy : Option String → Bool
  | none => false
  | some s => !s.isEmpty

/-- SQL `LIKE` pattern matching: `%` matches any sequence, `_` matches one
character, anything else literally. -/
def likeMatch (p s : List Char) : Bool :=
  match p, s with
  | [], s => s.isEmpty
  | c :: ps, s =>
    if c = '%' then
      match s with
      | [] => likeMatch ps []
      | _ :: cs => likeMatch ps s || likeMatch (c :: ps) cs
    else
      match s with
      | [] => false
      | d :: ds => if c = '_' then likeMatch ps ds else (c = d) && likeMatch ps ds
termination_by (p.length, s.length)

/-- `Book.genre.ilike(f"%{genre}%")`: case-insensitive `LIKE` against the
pattern `%<genre>%`. -/
def ilikeGenre (bookGenre g : String) : Bool :=
  likeMatch ("%" ++ g ++ "%").toLower.toList bookGenre.toLower.toList

/-- The reviews joined to a given book (`outerjoin(Review, Book.id ==
Review.book_id)` restricted to one group). -/
def reviewsFor (db : DB) (bookId : Nat) : List Review :=
  db.reviews.filter (fun r => r.book_id == bookId)

/-- SQL `AVG(Review.rating)` over a group: `NULL` (`none`) when the group has
no review rows, otherwise the exact mean. -/
def avgRating (rs : List Review) : Option ℚ :=
  match rs with
  | [] => none
  | _ :: _ => some ((rs.map (fun r => (r.rating : ℚ))).sum / rs.length)

/-- One pre-`ORDER BY` row of the aggregation query in `get_recommendations`:
a book with its `AVG(rating)` and `COUNT(Review.id)`. -/
structure RecRow where
  book : Book
  avg : Option ℚ
  cnt : Nat
deriving Repr, DecidableEq

/-- Books passing the `ilike` genre filter; no filter when `genre` is falsy
(`if genre:` builds the `filters` list). -/
def genreBooks (db : DB) (genre : Option String) : List Book :=
  if strTruthy genre then
    db.books.filter (fun b => ilikeGenre b.genre (pyStr genre))
  else db.books

/-- The grouped rows of the aggregation query (one per surviving book). -/
def recRows (db : DB) (genre : Option String) : List RecRow :=
  (genreBooks db genre).map (fun b =>
    ⟨b, avgRating (reviewsFor db b.id), (reviewsFor db b.id).length⟩)

/-- `ORDER BY AVG(rating) DESC` on the nullable average.  A `NULL` average
occurs exactly on groups with count 0, and the count is the primary sort key,
so the relative placement of `NULL` never influences the result; it is fixed
here as "after every non-`NULL`". -/
def avgGE (a b : Option ℚ) : Bool :=
  match a, b with
  | none, none => true
  | none, some _ => false
  | some _, none => true
  | some x, some y => decide (y ≤ x)

/-- The `ORDER BY func.count(Review.id).desc(), func.avg(Review.rating).desc()`
ordering: `x` may precede `y`. -/
def rowLE (x y : RecRow) : Bool :=
  if x.cnt = y.cnt then avgGE x.avg y.avg else decide (y.cnt < x.cnt)

/-- The ordering as a decidable relation for sorting. -/
def rowOrd (x y : RecRow) : Prop := rowLE x y = true

instance : DecidableRel rowOrd := fun x y => instDecidableEqBool (rowLE x y) true

/-- The rows of the query after `ORDER BY` (any sort consistent with the
comparator models the SQL result order). -/
def recSorted (db : DB) (genre : Option String) : List RecRow :=
  (recRows db genre).insertionSort rowOrd

/-- The dict built for each row: `float(avg) if avg else None` — falsy (`NULL`
or `0`) becomes `None`. -/
def toEntry (row : RecRow) : RecEntry :=
  { id := row.book.id
    title := row.book.title
    author := row.book.author
    genre := row.book.genre
    average_rating :=
      match row.avg with
      | none => none
      | some a => if a = 0 then none else some a
    total_reviews := row.cnt }

/-- The full database path of `get_recommendations` (cache-miss branch):
aggregate, order, `limit`, format. -/
def recQuery (db : DB) (genre : Option String) (limit : Nat) : List RecEntry :=
  ((recSorted db genre).take limit).map toEntry

/-- `RecommendationService.get_recommendations`: try the cache, else run the
query, cache the list, and return it with the `is_cached` flag.  Returns the
resulting cache-client state alongside the Python return value. -/
def getRecommendations (db : DB) (c : Option RedisState) (genre : Option String)
    (limit : Nat) : Res ((List RecEntry × Bool) × Option RedisState) :=
  cacheGet c (cacheKey genre limit) >>= fun cached =>
  match cached with
  | some data => .ok ((data, true), c)
  | none =>
    let recommendations := recQuery db genre limit
    cacheSet c (cacheKey genre limit) recommendations >>= fun (_, c') =>
    .ok ((recommendations, false), c')

/-- `RecommendationService.invalidate_recommendations_cache`. -/
def invalidateRecommendationsCache (c : Option RedisState) :
    Res (Option RedisState) :=
  cacheClearPattern c "recommendations:*" >>= fun (_, c') => .ok c'

/-! ## Book service (`app/services/book_service.py`) -/

/-- Payload of `BookCreate` (schema-validated fields). -/
structure BookCreate where
  title : String
  author : String
  genre : String
  year_published : Int
deriving Repr, DecidableEq

/-- Payload of `BookUpdate`: `none` models a field absent from the request
(`model_dump(exclude_unset=True)` skips it). -/
structure BookUpdate where
  title : Option String
  author : Option String
  genre : Option String
  year_published : Option Int
  summary : Option (Option String)
deriving Repr, DecidableEq

/-- Autoincrement primary key for a new `books` row. -/
def nextBookId (db : DB) : Nat :=
  (db.books.map Book.id).foldr max 0 + 1

/-- Autoincrement primary key for a new `reviews` row. -/
def nextReviewId (db : DB) : Nat :=
  (db.reviews.map Review.id).foldr max 0 + 1

/-- `BookService.create_book`: insert and commit; returns the refreshed row. -/
def createBook (bd : BookCreate) (db : DB) : Res (Book × DB) :=
  let newBook : Book :=
    { id := nextBookId db
      title := bd.title
      author := bd.author
      genre := bd.genre
      year_published := bd.year_published
      summary := none }
  .ok (newBook, { db with books := db.books ++ [newBook] })

/-- `BookService.get_book_by_id`: `SELECT ... WHERE Book.id == book_id` then
`scalar_one_or_none`; raises 404 when absent. -/
def getBookById (bookId : Nat) (db : DB) : Res Book :=
  scalarOneOrNone (db.books.filter (fun b => b.id == bookId)) >>= fun book =>
  match book with
  | none => .err 404 ("Book with id " ++ toString bookId ++ " not found")
  | some b => .ok b

/-- `setattr` loop of `update_book` over the fields present in the payload. -/
def applyBookUpdate (bd : BookUpdate) (b : Book) : Book :=
  { b with
    title := bd.title.getD b.title
    author := bd.author.getD b.author
    genre := bd.genre.getD b.genre
    year_published := bd.year_published.getD b.year_published
    summary := bd.summary.getD b.summary }

/-- `BookService.update_book`: fetch (404 when absent), apply the provided
fields, commit. -/
def updateBook (bookId : Nat) (bd : BookUpdate) (db : DB) : Res (Book × DB) :=
  getBookById bookId db >>= fun b =>
  let b' := applyBookUpdate bd b
  .ok (b', { db with
    books := db.books.map (fun x => if x.id == bookId then b' else x) })

/-- `BookService.delete_book`: fetch (404 when absent), delete, commit.  The
`cascade="all, delete-orphan"` relationship also deletes the book's reviews. -/
def deleteBook (bookId : Nat) (db : DB) : Res DB :=
  getBookById bookId db >>= fun _ =>
  .ok { db with
    books := db.books.filter (fun b => !(b.id == bookId))
    reviews := db.reviews.filter (fun r => !(r.book_id == bookId)) }

/-- The dict returned by `BookService.get_book_summary`. -/
structure BookSummary where
  id : Nat
  title : String
  author : String
  summary : Option String
  average_rating : ℚ
  total_reviews : Nat
deriving Repr, DecidableEq

/-- `BookService.get_book_summary`: fetch the book (404 when absent), aggregate
`AVG(rating)`/`COUNT(id)` over its reviews, and apply the sentinel conversion
`float(avg) if avg else 0.0` (falsy `NULL` or `0` becomes `0.0`). -/
def getBookSummary (bookId : Nat) (db : DB) : Res BookSummary :=
  getBookById bookId db >>= fun b =>
  let rs := reviewsFor db bookId
  .ok { id := b.id
        title := b.title
        author := b.author
        summary := b.summary
        average_rating :=
          match avgRating rs with
          | none => 0
          | some a => if a = 0 then 0 else a
        total_reviews := rs.length }

/-! ## Review service (`app/services/review_service.py`) -/

/-- Payload of `ReviewCreate` (schema enforces `1 ≤ rating ≤ 5`). -/
structure ReviewCreate where
  review_text : String
  rating : Nat
deriving Repr, DecidableEq

/-- Payload of `ReviewUpdate`: `none` models an absent field. -/
structure ReviewUpdate where
  review_text : Option String
  rating : Option Nat
deriving Repr, DecidableEq

/-- `ReviewService.create_review`: verify the book exists (404), reject a
second review by the same user on the same book (400), else insert and
commit. -/
def createReview (bookId : Nat) (rd : ReviewCreate) (userId : Nat) (db : DB) :
    Res (Review × DB) :=
  scalarOneOrNone (db.books.filter (fun b => b.id == bookId)) >>= fun book =>
  match book with
  | none => .err 404 ("Book with id " ++ toString bookId ++ " not found")
  | some _ =>
    scalarOneOrNone (db.reviews.filter
        (fun r => r.book_id == bookId && r.user_id == userId)) >>= fun existing =>
    match existing with
    | some _ => .err 400 "You have already reviewed this book"
    | none =>
      let newReview : Review :=
        { id := nextReviewId db
          book_id := bookId
          user_id := userId
          review_text := rd.review_text
          rating := rd.rating }
      .ok (newReview, { db with reviews := db.reviews ++ [newReview] })

/-- `ReviewService.get_review_by_id`: 404 when absent. -/
def getReviewById (reviewId : Nat) (db : DB) : Res Review :=
  scalarOneOrNone (db.reviews.filter (fun r => r.id == reviewId)) >>= fun rv =>
  match rv with
  | none => .err 404 ("Review with id " ++ toString reviewId ++ " not found")
  | some r => .ok r

/-- `setattr` loop of `update_review` over the fields present in the payload. -/
def applyReviewUpdate (rd : ReviewUpdate) (r : Review) : Review :=
  { r with
    review_text := rd.review_text.getD r.review_text
    rating := rd.rating.getD r.rating }

/-- `ReviewService.update_review`: fetch (404), author check (403), apply the
provided fields, commit.  Note: no cache invalidation happens anywhere on this
path — neither here nor in any caller. -/
def updateReview (reviewId : Nat) (rd : ReviewUpdate) (userId : Nat) (db : DB) :
    Res (Review × DB) :=
  getReviewById reviewId db >>= fun r =>
  if r.user_id ≠ userId then .err 403 "You can only update your own reviews"
  else
    let r' := applyReviewUpdate rd r
    .ok (r', { db with
      reviews := db.reviews.map (fun x => if x.id == reviewId then r' else x) })

/-- `ReviewService.delete_review`: fetch (404), author check (403), delete,
commit.  Note: no cache invalidation happens anywhere on this path. -/
def deleteReview (reviewId : Nat) (userId : Nat) (db : DB) : Res DB :=
  getReviewById reviewId db >>= fun r =>
  if r.user_id ≠ userId then .err 403 "You can only delete your own reviews"
  else .ok { db with reviews := db.reviews.filter (fun x => !(x.id == reviewId)) }

/-! ## Auth service (`app/services/auth_service.py`) -/

/-- `AuthService.authenticate_user`: one query matching the identifier against
both columns (`(User.username == username) | (User.email == username)`),
`scalar_one_or_none`, then the opaque password check `verify(password,
digest)`. -/
def authenticateUser (verify : String → String → Bool) (username password : String)
    (db : DB) : Res (Option User) :=
  scalarOneOrNone (db.users.filter
      (fun u => u.username == username || u.email == username)) >>= fun user =>
  match user with
  | none => .ok none
  | some u =>
    if ¬ verify password u.hashed_password then .ok none
    else .ok (some u)

/-- The JWT claims signed by `login` (token issuance itself is an opaque
primitive `sign(claims)`). -/
structure TokenClaims where
  sub : String
  username : String
  role : UserRole
deriving Repr, DecidableEq

/-- `AuthService.login`: authenticate (401 on `None`), reject inactive users
(403), else issue the token. -/
def login (verify : String → String → Bool) (username password : String)
    (db : DB) : Res TokenClaims :=
  authenticateUser verify username password db >>= fun user =>
  match user with
  | none => .err 401 "Incorrect username or password"
  | some u =>
    if ¬ u.is_active then .err 403 "Inactive user"
    else .ok { sub := toString u.id, username := u.username, role := u.role }

/-! ## Mutation endpoints (`app/api/endpoints/books.py`) -/

/-- `POST /books`: create, then invalidate the recommendations cache, then
return the created book. -/
def createBookEndpoint (bd : BookCreate) (db : DB) (c : Option RedisState) :
    Res (Book × DB × Option RedisState) :=
  createBook bd db >>= fun (book, db') =>
  invalidateRecommendationsCache c >>= fun c' =>
  .ok (book, db', c')

/-- `PUT /books/{id}`: update (404 propagates), then invalidate, then return. -/
def updateBookEndpoint (bookId : Nat) (bd : BookUpdate) (db : DB)
    (c : Option RedisState) : Res (Book × DB × Option RedisState) :=
  updateBook bookId bd db >>= fun (book, db') =>
  invalidateRecommendationsCache c >>= fun c' =>
  .ok (book, db', c')

/-- `DELETE /books/{id}`: delete (404 propagates), then invalidate. -/
def deleteBookEndpoint (bookId : Nat) (db : DB) (c : Option RedisState) :
    Res (DB × Option RedisState) :=
  deleteBook bookId db >>= fun db' =>
  invalidateRecommendationsCache c >>= fun c' =>
  .ok (db', c')

/-- `POST /books/{id}/reviews`: create the review (404/400 propagate), then
invalidate, then return. -/
def createBookReviewEndpoint (bookId : Nat) (rd : ReviewCreate) (userId : Nat)
    (db : DB) (c : Option RedisState) : Res (Review × DB × Option RedisState) :=
  createReview bookId rd userId db >>= fun (review, db') =>
  invalidateRecommendationsCache c >>= fun c' =>
  .ok (review, db', c')

/-! ## Helper notions and lemmas -/

/-- `p` is a prefix of `s` (on character lists). -/
def beginsWith (p s : List Char) : Bool :=
  match p, s with
  | [], _ => true
  | _ :: _, [] => false
  | a :: ps, b :: ss => (a = b) && beginsWith ps ss

/-- A key of the recommendations cache family: begins with
`"recommendations:"`. -/
def isRecKey (k : String) : Bool :=
  beginsWith "recommendations:".toList k.toList

/-- The cache client is unavailable: never connected (`None`), or the
connection is broken so every backend call raises. -/
def cacheDown (c : Option RedisState) : Prop :=
  c = none ∨ ∃ r, c = some r ∧ r.failing = true

theorem globMatch_star (s : List Char) : globMatch ['*'] s = true := by
  induction s with
  | nil => simp [globMatch]
  | cons c cs ih => simp [globMatch, ih]

theorem globMatch_lit_star (lit : List Char)
    (hstar : ∀ c ∈ lit, c ≠ '*' ∧ c ≠ '?') (s : List Char) :
    globMatch (lit ++ ['*']) s = beginsWith lit s := by
  induction lit generalizing s with
  | nil => simp [beginsWith, globMatch_star]
  | cons c ps ih =>
    have hc := hstar c (by simp)
    cases s with
    | nil => simp [globMatch, beginsWith, hc.1]
    | cons d ds =>
      simp only [List.cons_append, globMatch, beginsWith, if_neg hc.1, if_neg hc.2,
        ih (fun x hx => hstar x (List.mem_cons_of_mem _ hx))]

theorem lookup_filter_not (k : String) (p : String × CacheVal → Bool)
    (h : ∀ v, p (k, v) = false) :
    ∀ l : List (String × CacheVal), (l.filter p).lookup k = none := by
  intro l
  induction l with
  | nil => rfl
  | cons a t ih =>
    obtain ⟨k', v'⟩ := a
    by_cases hp : p (k', v') = true
    · have hk : ¬ (k = k') := by
        intro he
        rw [← he, h v'] at hp
        exact Bool.false_ne_true hp
      rw [List.filter_cons_of_pos hp, List.lookup]
      simp only [beq_false_of_ne hk]
      exact ih
    · rw [List.filter_cons_of_neg hp]
      exact ih

/-- Net effect of `invalidate_recommendations_cache` on any client state: it
returns normally and afterwards every read of a `recommendations:*` key
misses. -/
theorem invalidate_clears (c : Option RedisState) :
    ∃ c', invalidateRecommendationsCache c = .ok c' ∧
      ∀ k, isRecKey k = true → cacheGet c' k = .ok none := by
  match c with
  | none => exact ⟨none, rfl, fun k _ => rfl⟩
  | some r =>
    by_cases hf : r.failing = true
    · refine ⟨some r, ?_, ?_⟩
      · simp [invalidateRecommendationsCache, cacheClearPattern, redisDelPattern, hf]
      · intro k _
        simp [cacheGet, redisGet, hf]
    · have hf' : r.failing = false := by simpa using hf
      refine ⟨some ⟨r.store.filter
        (fun kv => !globMatch "recommendations:*".toList kv.1.toList), r.failing⟩, ?_, ?_⟩
      · simp [invalidateRecommendationsCache, cacheClearPattern, redisDelPattern, hf']
      · intro k hk
        have hmatch : globMatch "recommendations:*".toList k.toList = true := by
          have hsplit : "recommendations:*".toList
              = "recommendations:".toList ++ ['*'] := by decide
          rw [hsplit, globMatch_lit_star "recommendations:".toList (by decide)]
          exact hk
        simp only [cacheGet, redisGet, hf', Bool.false_eq_true, if_false]
        rw [lookup_filter_not k _ (fun v => by simpa using hmatch)]

/-- **C7.** For every key, value, pattern, and backend state (client never
connected, broken connection, or healthy), the cache operations `get`, `set`,
`delete`, and `clear_pattern` always return normally (never a raised
exception); when the cache is unavailable, `get` returns `None` and the other
three return `False` leaving the client state unchanged, so cache
unavailability never fails the caller. -/
theorem c7_cache_ops_never_raise (c : Option RedisState) (key pat : String)
    (v : CacheVal) :
    ((∃ a, cacheGet c key = .ok a) ∧ (∃ a, cacheSet c key v = .ok a) ∧
      (∃ a, cacheDelete c key = .ok a) ∧ (∃ a, cacheClearPattern c pat = .ok a)) ∧
    (cacheDown c →
      cacheGet c key = .ok none ∧ cacheSet c key v = .ok (false, c) ∧
      cacheDelete c key = .ok (false, c) ∧ cacheClearPattern c pat = .ok (false, c)) := by
  match c with
  | none =>
    exact ⟨⟨⟨_, rfl⟩, ⟨_, rfl⟩, ⟨_, rfl⟩, ⟨_, rfl⟩⟩, fun _ => ⟨rfl, rfl, rfl, rfl⟩⟩
  | some ⟨store, true⟩ =>
    exact ⟨⟨⟨_, rfl⟩, ⟨_, rfl⟩, ⟨_, rfl⟩, ⟨_, rfl⟩⟩, fun _ => ⟨rfl, rfl, rfl, rfl⟩⟩
  | some ⟨store, false⟩ =>
    refine ⟨⟨⟨_, rfl⟩, ⟨_, rfl⟩, ⟨_, rfl⟩, ⟨_, rfl⟩⟩, ?_⟩
    rintro (h | ⟨r, hr, hfail⟩)
    · exact absurd h (by simp)
    · rw [Option.some_inj] at hr
      rw [← hr] at hfail
      exact absurd hfail (by simp)

/-- **C7 witness.** Concrete instance: a client with a broken connection
holding one entry degrades every operation to a miss/no-op without raising. -/
theorem c7_cache_ops_never_raise_witness :
    cacheGet (some ⟨[("recommendations:genre=None:limit=10", [])], true⟩) "k"
        = .ok none ∧
      cacheSet (some ⟨[("recommendations:genre=None:limit=10", [])], true⟩) "k" []
        = .ok (false, some ⟨[("recommendations:genre=None:limit=10", [])], true⟩) := by
  have h := (c7_cache_ops_never_raise
    (some ⟨[("recommendations:genre=None:limit=10", [])], true⟩) "k" "p" []).2
    (Or.inr ⟨_, rfl, rfl⟩)
  exact ⟨h.1, h.2.1⟩

/-- **C1.** Every successful run of the four mutation endpoints — book create,
book update, book delete, review create — performs the database write, then
invalidates the recommendations cache before returning, so in the state it
returns every read of a key beginning with `recommendations:` misses. -/
theorem c1_mutations_clear_recommendation_keys (db : DB) (c : Option RedisState) :
    (∀ (bd : BookCreate) (out), createBookEndpoint bd db c = .ok out →
        ∀ k, isRecKey k = true → cacheGet out.2.2 k = .ok none) ∧
    (∀ (bookId : Nat) (bd : BookUpdate) (out),
        updateBookEndpoint bookId bd db c = .ok out →
        ∀ k, isRecKey k = true → cacheGet out.2.2 k = .ok none) ∧
    (∀ (bookId : Nat) (out), deleteBookEndpoint bookId db c = .ok out →
        ∀ k, isRecKey k = true → cacheGet out.2 k = .ok none) ∧
    (∀ (bookId : Nat) (rd : ReviewCreate) (userId : Nat) (out),
        createBookReviewEndpoint bookId rd userId db c = .ok out →
        ∀ k, isRecKey k = true → cacheGet out.2.2 k = .ok none) := by
  obtain ⟨c', hc', hclear⟩ := invalidate_clears c
  refine ⟨?_, ?_, ?_, ?_⟩
  · intro bd out hout k hk
    simp only [createBookEndpoint, createBook, Res.ok_bind, hc', Res.ok.injEq] at hout
    rw [← hout]
    exact hclear k hk
  · intro bookId bd out hout k hk
    cases hsvc : updateBook bookId bd db with
    | ok p =>
      obtain ⟨b1, db1⟩ := p
      simp only [updateBookEndpoint, hsvc, Res.ok_bind, hc', Res.ok.injEq] at hout
      rw [← hout]
      exact hclear k hk
    | err code msg => simp [updateBookEndpoint, hsvc] at hout
    | exn msg => simp [updateBookEndpoint, hsvc] at hout
  · intro bookId out hout k hk
    cases hsvc : deleteBook bookId db with
    | ok db1 =>
      simp only [deleteBookEndpoint, hsvc, Res.ok_bind, hc', Res.ok.injEq] at hout
      rw [← hout]
      exact hclear k hk
    | err code msg => simp [deleteBookEndpoint, hsvc] at hout
    | exn msg => simp [deleteBookEndpoint, hsvc] at hout
  · intro bookId rd userId out hout k hk
    cases hsvc : createReview bookId rd userId db with
    | ok p =>
      obtain ⟨r1, db1⟩ := p
      simp only [createBookReviewEndpoint, hsvc, Res.ok_bind, hc', Res.ok.injEq] at hout
      rw [← hout]
      exact hclear k hk
    | err code msg => simp [createBookReviewEndpoint, hsvc] at hout
    | exn msg => simp [createBookReviewEndpoint, hsvc] at hout

/-- **C4.** From an empty working cache, two consecutive
`get_recommendations` calls with identical parameters return `wasCached=false`
then `wasCached=true`, with identical entry lists: the store-then-load through
the cache round-trips the computed list unchanged. -/
theorem c4_consecutive_calls_hit_cache (db : DB) (genre : Option String)
    (limit : Nat) :
    ∃ entries c1,
      getRecommendations db (some ⟨[], false⟩) genre limit
          = .ok ((entries, false), c1) ∧
        getRecommendations db c1 genre limit = .ok ((entries, true), c1) := by
  refine ⟨recQuery db genre limit,
    some ⟨[(cacheKey genre limit, recQuery db genre limit)], false⟩, ?_, ?_⟩
  · simp [getRecommendations, cacheGet, cacheSet, redisGet, redisSetex]
  · simp [getRecommendations, cacheGet, redisGet, List.lookup]

/-- **C9.** When the cache-miss computation yields an empty entry list, the
empty list is cached like any other value: the next call with the same
parameters is a cache hit returning `[]` with `wasCached=true`, independent of
the database contents (no recomputation). -/
theorem c9_empty_result_is_cached (db : DB) (genre : Option String)
    (limit : Nat) (h : recQuery db genre limit = []) :
    ∃ c1,
      getRecommendations db (some ⟨[], false⟩) genre limit
          = .ok (([], false), c1) ∧
        ∀ db' : DB, getRecommendations db' c1 genre limit = .ok (([], true), c1) := by
  refine ⟨some ⟨[(cacheKey genre limit, ([] : CacheVal))], false⟩, ?_, ?_⟩
  · simp [getRecommendations, cacheGet, cacheSet, redisGet, redisSetex, h]
  · intro db'
    simp [getRecommendations, cacheGet, redisGet, List.lookup]

/-- **C9 witness.** The empty database produces an empty recommendation list,
which is cached and then served as a hit for any database. -/
theorem c9_empty_result_is_cached_witness :
    recQuery ⟨[], [], []⟩ none 10 = [] ∧
      ∃ c1,
        getRecommendations ⟨[], [], []⟩ (some ⟨[], false⟩) none 10
            = .ok (([], false), c1) ∧
          ∀ db' : DB, getRecommendations db' c1 none 10 = .ok (([], true), c1) :=
  ⟨by decide, c9_empty_result_is_cached ⟨[], [], []⟩ none 10 (by decide)⟩

/-- A run of digit characters is delimited by the first non-digit (`'='`)
that follows it: two such runs with equal continuations coincide. -/
theorem digits_boundary : ∀ (d1 d2 t1 t2 : List Char),
    (∀ c ∈ d1, c.isDigit = true) → (∀ c ∈ d2, c.isDigit = true) →
    d1 ++ '=' :: t1 = d2 ++ '=' :: t2 → d1 = d2 ∧ t1 = t2 := by
  intro d1
  induction d1 with
  | nil =>
    intro d2 t1 t2 _ h2 heq
    cases d2 with
    | nil => simpa using heq
    | cons c cs =>
      simp only [List.nil_append, List.cons_append, List.cons.injEq] at heq
      have hc := h2 c (by simp)
      rw [← heq.1] at hc
      simp at hc
  | cons a as ih =>
    intro d2 t1 t2 h1 h2 heq
    cases d2 with
    | nil =>
      simp only [List.nil_append, List.cons_append, List.cons.injEq] at heq
      have hc := h1 a (by simp)
      rw [heq.1] at hc
      simp at hc
    | cons c cs =>
      simp only [List.cons_append, List.cons.injEq] at heq
      obtain ⟨hac, hrest⟩ := heq
      obtain ⟨hd, ht⟩ := ih cs t1 t2 (fun x hx => h1 x (by simp [hx]))
        (fun x hx => h2 x (by simp [hx])) hrest
      exact ⟨by rw [hac, hd], ht⟩

/-- Splitting a string of the form `<text>:limit=<digits>` is unambiguous:
the digit suffix contains no `'='`, so both components are determined. -/
theorem sep_digits_inj (a b r1 r2 : List Char)
    (h1 : ∀ c ∈ r1, c.isDigit = true) (h2 : ∀ c ∈ r2, c.isDigit = true)
    (heq : a ++ ":limit=".data ++ r1 = b ++ ":limit=".data ++ r2) :
    a = b ∧ r1 = r2 := by
  have hrev : r1.reverse ++ '=' ::
        ('t' :: 'i' :: 'm' :: 'i' :: 'l' :: ':' :: a.reverse)
      = r2.reverse ++ '=' ::
        ('t' :: 'i' :: 'm' :: 'i' :: 'l' :: ':' :: b.reverse) := by
    have h := congrArg List.reverse heq
    simpa [List.reverse_append, List.append_assoc] using h
  obtain ⟨hd, ht⟩ := digits_boundary r1.reverse r2.reverse _ _
    (fun c hc => h1 c (List.mem_reverse.mp hc))
    (fun c hc => h2 c (List.mem_reverse.mp hc)) hrev
  refine ⟨?_, List.reverse_injective hd⟩
  have ha : a.reverse = b.reverse := by
    simpa using ht
  exact List.reverse_injective ha

/-- Decimal representations of the limits accepted by the endpoint
(`limit ≤ 50`) consist of digit characters only. -/
theorem natRepr_digits : ∀ l, l < 51 → ∀ c ∈ (Nat.repr l).data, c.isDigit = true := by
  decide

/-- Decimal representation is injective on the accepted limit range. -/
theorem natRepr_inj_lt : ∀ l1, l1 < 51 → ∀ l2, l2 < 51 →
    Nat.repr l1 = Nat.repr l2 → l1 = l2 := by
  decide

/-- **C2 counterexample.** The claim's injectivity fails: the absent genre
(`None`) and the literal genre string `"None"` are different parameters but
produce the identical cache key, because the f-string renders Python `None`
as the text `None`. -/
theorem c2_counterexample :
    (some "None" ≠ (none : Option String)) ∧
      cacheKey (some "None") 10 = cacheKey none 10 := by
  decide

/-- **C2 (amended).** The cache key is exactly
`"recommendations:genre=<genre or the literal None>:limit=<limit>"`, and on
the endpoint's limit range it is injective in the *rendered* parameters:
two keys coincide exactly when the rendered genre texts (`None` for an absent
genre) and the limits coincide.  In particular identical parameters share a
slot, and different parameters never collide except for the absent-genre
versus literal-`"None"` identification; genre values containing `":limit="`
still never collide with other parameter pairs. -/
theorem c2_cache_key_injective_on_rendered (g1 g2 : Option String)
    (l1 l2 : Nat) (h1 : l1 < 51) (h2 : l2 < 51) :
    cacheKey g1 l1 = cacheKey g2 l2 ↔ (pyStr g1 = pyStr g2 ∧ l1 = l2) := by
  constructor
  · intro h
    have hd := congrArg String.data h
    simp only [cacheKey, String.data_append, List.append_assoc] at hd
    have hx := List.append_cancel_left hd
    have hrepr1 : (toString l1).data = (Nat.repr l1).data := rfl
    have hrepr2 : (toString l2).data = (Nat.repr l2).data := rfl
    rw [← List.append_assoc, ← List.append_assoc, hrepr1, hrepr2] at hx
    obtain ⟨hg, hr⟩ := sep_digits_inj _ _ _ _ (natRepr_digits l1 h1)
      (natRepr_digits l2 h2) hx
    exact ⟨String.ext hg, natRepr_inj_lt l1 h1 l2 h2 (String.ext hr)⟩
  · rintro ⟨hg, hl⟩
    rw [cacheKey, cacheKey, hg, hl]

/-- **C2 witness.** Concrete use of the amended key characterisation: the keys
for genres `"a"` and `"b"` with limits `10` and `7` do not collide. -/
theorem c2_cache_key_injective_on_rendered_witness :
    (10 : Nat) < 51 ∧ (7 : Nat) < 51 ∧
      (cacheKey (some "a") 10 = cacheKey (some "b") 7 ↔
        (pyStr (some "a") = pyStr (some "b") ∧ 10 = 7)) :=
  ⟨by decide, by decide,
    c2_cache_key_injective_on_rendered (some "a") (some "b") 10 7
      (by decide) (by decide)⟩

theorem avgGE_total (a b : Option ℚ) : avgGE a b = true ∨ avgGE b a = true := by
  match a, b with
  | none, none => exact Or.inl rfl
  | none, some _ => exact Or.inr rfl
  | some _, none => exact Or.inl rfl
  | some x, some y =>
    rcases le_total x y with h | h
    · right; simpa [avgGE] using h
    · left; simpa [avgGE] using h

theorem avgGE_trans {a b c : Option ℚ} (h1 : avgGE a b = true)
    (h2 : avgGE b c = true) : avgGE a c = true := by
  match a, b, c with
  | none, none, none => rfl
  | none, none, some _ => simp [avgGE] at h2
  | none, some _, _ => simp [avgGE] at h1
  | some _, none, none => rfl
  | some _, none, some _ => simp [avgGE] at h2
  | some _, some _, none => rfl
  | some x, some y, some z =>
    simp only [avgGE, decide_eq_true_eq] at h1 h2 ⊢
    exact le_trans h2 h1

theorem rowLE_trans {a b c : RecRow} (hab : rowLE a b = true)
    (hbc : rowLE b c = true) : rowLE a c = true := by
  unfold rowLE at *
  by_cases h1 : a.cnt = b.cnt <;> by_cases h2 : b.cnt = c.cnt
  · rw [if_pos h1] at hab
    rw [if_pos h2] at hbc
    rw [if_pos (h1.trans h2)]
    exact avgGE_trans hab hbc
  · rw [if_pos h1] at hab
    rw [if_neg h2] at hbc
    rw [if_neg (fun h => h2 (h1.symm.trans h))]
    simp only [decide_eq_true_eq] at hbc ⊢
    omega
  · rw [if_neg h1] at hab
    rw [if_pos h2] at hbc
    rw [if_neg (fun h => h1 (h.trans h2.symm))]
    simp only [decide_eq_true_eq] at hab ⊢
    omega
  · rw [if_neg h1] at hab
    rw [if_neg h2] at hbc
    simp only [decide_eq_true_eq] at hab hbc
    rw [if_neg (by omega)]
    simp only [decide_eq_true_eq]
    omega

instance rowOrdIsTotal : IsTotal RecRow rowOrd where
  total a b := by
    unfold rowOrd rowLE
    by_cases h : a.cnt = b.cnt
    · rw [if_pos h, if_pos h.symm]
      exact avgGE_total a.avg b.avg
    · rw [if_neg h, if_neg (Ne.symm h)]
      rcases Nat.lt_or_ge a.cnt b.cnt with hlt | hge
      · right; simpa using hlt
      · left
        simp only [decide_eq_true_eq]
        omega

instance rowOrdIsTrans : IsTrans RecRow rowOrd where
  trans _ _ _ hab hbc := rowLE_trans hab hbc

theorem rowLE_cnt {x y : RecRow} (h : rowLE x y = true) : y.cnt ≤ x.cnt := by
  unfold rowLE at h
  by_cases hc : x.cnt = y.cnt
  · omega
  · rw [if_neg hc] at h
    simp only [decide_eq_true_eq] at h
    omega

/-- **C5.** On the cache-miss path the result is ordered with primary key
review count descending and secondary key average rating descending (the
`ORDER BY`-sorted rows are pairwise ordered by the lexicographic comparator);
consequently in the returned list review counts are non-increasing, so every
zero-review book sorts after every book with at least one review; and for
book A with ratings 5,5, book B with one rating 5, and book C with no
reviews, the returned order is `[A, B, C]`. -/
theorem c5_recommendations_ordering :
    (∀ (db : DB) (genre : Option String), (recSorted db genre).Pairwise rowOrd) ∧
    (∀ (db : DB) (genre : Option String) (limit : Nat),
        (recQuery db genre limit).Pairwise
          (fun x y => y.total_reviews ≤ x.total_reviews)) ∧
    (recQuery
        ⟨[⟨1, "A", "a", "g", 2000, none⟩, ⟨2, "B", "b", "g", 2000, none⟩,
            ⟨3, "C", "c", "g", 2000, none⟩],
          [⟨1, 1, 1, "review text", 5⟩, ⟨2, 1, 2, "review text", 5⟩,
            ⟨3, 2, 1, "review text", 5⟩], []⟩ none 10
      = [⟨1, "A", "a", "g", some 5, 2⟩, ⟨2, "B", "b", "g", some 5, 1⟩,
          ⟨3, "C", "c", "g", none, 0⟩]) := by
  refine ⟨?_, ?_, ?_⟩
  · intro db genre
    exact List.sorted_insertionSort rowOrd (recRows db genre)
  · intro db genre limit
    have hs : (recSorted db genre).Pairwise rowOrd :=
      List.sorted_insertionSort rowOrd (recRows db genre)
    have ht : ((recSorted db genre).take limit).Pairwise rowOrd :=
      hs.sublist (List.take_sublist limit _)
    exact List.pairwise_map.mpr (ht.imp (fun h => rowLE_cnt h))
  · have havgA : avgRating [⟨1, 1, 1, "review text", 5⟩,
        ⟨2, 1, 2, "review text", 5⟩] = some 5 := by
      norm_num [avgRating]
    have havgB : avgRating [⟨3, 2, 1, "review text", 5⟩] = some 5 := by
      norm_num [avgRating]
    have h_rows : recRows
        ⟨[⟨1, "A", "a", "g", 2000, none⟩, ⟨2, "B", "b", "g", 2000, none⟩,
            ⟨3, "C", "c", "g", 2000, none⟩],
          [⟨1, 1, 1, "review text", 5⟩, ⟨2, 1, 2, "review text", 5⟩,
            ⟨3, 2, 1, "review text", 5⟩], []⟩ none
        = [⟨⟨1, "A", "a", "g", 2000, none⟩,
              avgRating [⟨1, 1, 1, "review text", 5⟩, ⟨2, 1, 2, "review text", 5⟩], 2⟩,
            ⟨⟨2, "B", "b", "g", 2000, none⟩,
              avgRating [⟨3, 2, 1, "review text", 5⟩], 1⟩,
            ⟨⟨3, "C", "c", "g", 2000, none⟩, avgRating [], 0⟩] := rfl
    rw [recQuery, recSorted, h_rows, havgA, havgB]
    decide

/-- **C6.** For an existing book with zero reviews `get_book_summary` returns
`average_rating = 0.0` and `total_reviews = 0`, while the recommendation-list
entry of a zero-review book carries `average_rating = None`; for a book whose
reviews have ratings 5 and 3 the summary average is exactly 4.0; and
`get_book_summary` raises 404 whenever the book id does not exist, independent
of review count. -/
theorem c6_summary_sentinel_vs_null (db : DB) (bookId : Nat) :
    (∀ b, db.books.filter (fun x => x.id == bookId) = [b] →
        reviewsFor db bookId = [] →
        getBookSummary bookId db = .ok ⟨b.id, b.title, b.author, b.summary, 0, 0⟩) ∧
    (∀ (genre : Option String) (limit : Nat) (e : RecEntry),
        e ∈ recQuery db genre limit → e.total_reviews = 0 →
        e.average_rating = none) ∧
    (∀ b r1 r2, db.books.filter (fun x => x.id == bookId) = [b] →
        reviewsFor db bookId = [r1, r2] → r1.rating = 5 → r2.rating = 3 →
        getBookSummary bookId db = .ok ⟨b.id, b.title, b.author, b.summary, 4, 2⟩) ∧
    (db.books.filter (fun x => x.id == bookId) = [] →
        getBookSummary bookId db
          = .err 404 ("Book with id " ++ toString bookId ++ " not found")) := by
  refine ⟨?_, ?_, ?_, ?_⟩
  · intro b hb hrev
    simp [getBookSummary, getBookById, scalarOneOrNone, hb, hrev, avgRating]
  · intro genre limit e he htr
    obtain ⟨row, hrow, rfl⟩ := List.mem_map.mp he
    have hmem : row ∈ recSorted db genre := List.mem_of_mem_take hrow
    have hmem' : row ∈ recRows db genre :=
      (List.perm_insertionSort rowOrd (recRows db genre)).mem_iff.mp hmem
    obtain ⟨b, _, rfl⟩ := List.mem_map.mp hmem'
    have hzero : (reviewsFor db b.id).length = 0 := htr
    have hnil : reviewsFor db b.id = [] := List.length_eq_zero.mp hzero
    simp [toEntry, hnil, avgRating]
  · intro b r1 r2 hb hrev hr1 hr2
    simp only [getBookSummary, getBookById, scalarOneOrNone, hb, hrev,
      avgRating, Res.ok_bind]
    norm_num [hr1, hr2]
  · intro hb
    simp [getBookSummary, getBookById, scalarOneOrNone, hb]

/-- **C6 witness.** Concrete database: book 1 has no reviews (summary average
`0.0`, recommendation entry average `None`), book 2 has ratings 5 and 3
(summary average exactly `4.0`), book id 3 does not exist (404). -/
theorem c6_summary_sentinel_vs_null_witness :
    getBookSummary 1
        ⟨[⟨1, "T", "A", "G", 2000, none⟩, ⟨2, "U", "B", "H", 2001, none⟩],
          [⟨1, 2, 1, "good book!!", 5⟩, ⟨2, 2, 2, "nice read!!", 3⟩], []⟩
      = .ok ⟨1, "T", "A", none, 0, 0⟩ ∧
    (⟨1, "T", "A", "G", none, 0⟩ : RecEntry).average_rating = none ∧
    getBookSummary 2
        ⟨[⟨1, "T", "A", "G", 2000, none⟩, ⟨2, "U", "B", "H", 2001, none⟩],
          [⟨1, 2, 1, "good book!!", 5⟩, ⟨2, 2, 2, "nice read!!", 3⟩], []⟩
      = .ok ⟨2, "U", "B", none, 4, 2⟩ ∧
    getBookSummary 3
        ⟨[⟨1, "T", "A", "G", 2000, none⟩, ⟨2, "U", "B", "H", 2001, none⟩],
          [⟨1, 2, 1, "good book!!", 5⟩, ⟨2, 2, 2, "nice read!!", 3⟩], []⟩
      = .err 404 ("Book with id " ++ toString 3 ++ " not found") := by
  refine ⟨?_, ?_, ?_, ?_⟩
  · exact (c6_summary_sentinel_vs_null
      ⟨[⟨1, "T", "A", "G", 2000, none⟩, ⟨2, "U", "B", "H", 2001, none⟩],
        [⟨1, 2, 1, "good book!!", 5⟩, ⟨2, 2, 2, "nice read!!", 3⟩], []⟩ 1).1
      ⟨1, "T", "A", "G", 2000, none⟩ (by decide) (by decide)
  · exact (c6_summary_sentinel_vs_null
      ⟨[⟨1, "T", "A", "G", 2000, none⟩], [], []⟩ 1).2.1 none 10
      ⟨1, "T", "A", "G", none, 0⟩ (by decide) (by decide)
  · exact (c6_summary_sentinel_vs_null
      ⟨[⟨1, "T", "A", "G", 2000, none⟩, ⟨2, "U", "B", "H", 2001, none⟩],
        [⟨1, 2, 1, "good book!!", 5⟩, ⟨2, 2, 2, "nice read!!", 3⟩], []⟩ 2).2.2.1
      ⟨2, "U", "B", "H", 2001, none⟩
      ⟨1, 2, 1, "good book!!", 5⟩ ⟨2, 2, 2, "nice read!!", 3⟩
      (by decide) (by decide) (by decide) (by decide)
  · exact (c6_summary_sentinel_vs_null
      ⟨[⟨1, "T", "A", "G", 2000, none⟩, ⟨2, "U", "B", "H", 2001, none⟩],
        [⟨1, 2, 1, "good book!!", 5⟩, ⟨2, 2, 2, "nice read!!", 3⟩], []⟩ 3).2.2.2
      (by decide)

/-- A `Nodup` list in which any two elements satisfying `p` are equal has at
most one element satisfying `p` (so `scalar_one_or_none` never raises on it). -/
theorem filter_short {α : Type} (l : List α) (hnd : l.Nodup) (p : α → Bool)
    (hp : ∀ r1 ∈ l, ∀ r2 ∈ l, p r1 = true → p r2 = true → r1 = r2) :
    l.filter p = [] ∨ ∃ a, l.filter p = [a] := by
  cases hl : l.filter p with
  | nil => exact Or.inl rfl
  | cons a t =>
    cases t with
    | nil => exact Or.inr ⟨a, rfl⟩
    | cons b t2 =>
      exfalso
      have hnf : (l.filter p).Nodup := hnd.filter p
      rw [hl] at hnf
      have ha : a ∈ l.filter p := by rw [hl]; simp
      have hb : b ∈ l.filter p := by rw [hl]; simp
      have hab : a = b := hp a (List.mem_of_mem_filter ha) b
        (List.mem_of_mem_filter hb) (List.of_mem_filter ha) (List.of_mem_filter hb)
      exact (List.nodup_cons.mp hnf).1 (by rw [hab]; simp)

/-- **C8.** If a review by the same user for the same (existing) book already
exists, `create_review` raises the 400 duplicate-review conflict and persists
nothing; a successful `create_review` happens only when the book exists and no
such review exists, appends exactly the new review, and preserves the
invariant of at most one review per (book, user) pair. -/
theorem c8_duplicate_review_conflict (db : DB) (bookId userId : Nat)
    (rd : ReviewCreate)
    (hbooks : (db.books.map Book.id).Nodup)
    (hrevs : (db.reviews.map Review.id).Nodup)
    (huniq : ∀ r1 ∈ db.reviews, ∀ r2 ∈ db.reviews,
        r1.book_id = r2.book_id → r1.user_id = r2.user_id → r1 = r2) :
    ((∃ b ∈ db.books, b.id = bookId) →
      (∃ r ∈ db.reviews, r.book_id = bookId ∧ r.user_id = userId) →
      createReview bookId rd userId db
        = .err 400 "You have already reviewed this book") ∧
    (∀ rv db', createReview bookId rd userId db = .ok (rv, db') →
      (¬ ∃ r ∈ db.reviews, r.book_id = bookId ∧ r.user_id = userId) ∧
        (∃ b ∈ db.books, b.id = bookId) ∧
        db'.reviews = db.reviews ++ [rv] ∧
        rv.book_id = bookId ∧ rv.user_id = userId ∧
        (∀ r1 ∈ db'.reviews, ∀ r2 ∈ db'.reviews,
          r1.book_id = r2.book_id → r1.user_id = r2.user_id → r1 = r2)) ∧
    (((∃ b ∈ db.books, b.id = bookId) ∧
        ¬ ∃ r ∈ db.reviews, r.book_id = bookId ∧ r.user_id = userId) →
      ∃ rv db', createReview bookId rd userId db = .ok (rv, db')) := by
  have hbshort := filter_short db.books (List.Nodup.of_map Book.id hbooks)
    (fun b => b.id == bookId)
    (fun b1 h1 b2 h2 hp1 hp2 => List.inj_on_of_nodup_map hbooks h1 h2
      (by rw [beq_iff_eq] at hp1 hp2; rw [hp1, hp2]))
  have hrshort := filter_short db.reviews (List.Nodup.of_map Review.id hrevs)
    (fun r => r.book_id == bookId && r.user_id == userId)
    (fun r1 h1 r2 h2 hp1 hp2 => by
      simp only [Bool.and_eq_true, beq_iff_eq] at hp1 hp2
      exact huniq r1 h1 r2 h2 (hp1.1.trans hp2.1.symm) (hp1.2.trans hp2.2.symm))
  refine ⟨?_, ?_, ?_⟩
  · rintro ⟨b, hbmem, hbid⟩ ⟨r, hrmem, hrb, hru⟩
    have hbne : db.books.filter (fun b => b.id == bookId) ≠ [] := by
      intro hnil
      have : b ∈ db.books.filter (fun b => b.id == bookId) :=
        List.mem_filter.mpr ⟨hbmem, by simp [hbid]⟩
      rw [hnil] at this
      exact List.not_mem_nil b this
    obtain hb | ⟨b', hb'⟩ := hbshort
    · exact absurd hb hbne
    have hrne : db.reviews.filter
        (fun r => r.book_id == bookId && r.user_id == userId) ≠ [] := by
      intro hnil
      have : r ∈ db.reviews.filter
          (fun r => r.book_id == bookId && r.user_id == userId) :=
        List.mem_filter.mpr ⟨hrmem, by simp [hrb, hru]⟩
      rw [hnil] at this
      exact List.not_mem_nil r this
    obtain hr | ⟨r', hr'⟩ := hrshort
    · exact absurd hr hrne
    simp [createReview, hb', hr', scalarOneOrNone]
  · intro rv db' hok
    obtain hbn | ⟨b', hb'⟩ := hbshort
    · simp [createReview, hbn, scalarOneOrNone] at hok
    obtain hrn | ⟨r', hr'⟩ := hrshort
    · simp only [createReview, hb', hrn, scalarOneOrNone, Res.ok_bind,
        Res.ok.injEq, Prod.mk.injEq] at hok
      obtain ⟨hrv, hdb'⟩ := hok
      have hnodup : ¬ ∃ r ∈ db.reviews, r.book_id = bookId ∧ r.user_id = userId := by
        rintro ⟨r, hrmem, hrb, hru⟩
        have : r ∈ db.reviews.filter
            (fun r => r.book_id == bookId && r.user_id == userId) :=
          List.mem_filter.mpr ⟨hrmem, by simp [hrb, hru]⟩
        rw [hrn] at this
        exact List.not_mem_nil r this
      have hbexists : ∃ b ∈ db.books, b.id = bookId := by
        have : b' ∈ db.books.filter (fun b => b.id == bookId) := by rw [hb']; simp
        exact ⟨b', List.mem_of_mem_filter this,
          by have := List.of_mem_filter this; rwa [beq_iff_eq] at this⟩
      refine ⟨hnodup, hbexists, ?_, ?_, ?_, ?_⟩
      · rw [← hdb', ← hrv]
      · rw [← hrv]
      · rw [← hrv]
      · intro r1 h1 r2 h2 heqb hequ
        rw [← hdb'] at h1 h2
        simp only [List.mem_append, List.mem_singleton] at h1 h2
        rcases h1 with h1 | h1 <;> rcases h2 with h2 | h2
        · exact huniq r1 h1 r2 h2 heqb hequ
        · exfalso
          apply hnodup
          refine ⟨r1, h1, ?_, ?_⟩
          · rw [heqb, h2]
          · rw [hequ, h2]
        · exfalso
          apply hnodup
          refine ⟨r2, h2, ?_, ?_⟩
          · rw [← heqb, h1]
          · rw [← hequ, h1]
        · rw [h1, h2]
    · simp [createReview, hb', hr', scalarOneOrNone] at hok
  · rintro ⟨⟨b, hbmem, hbid⟩, hnodup⟩
    have hbne : db.books.filter (fun b => b.id == bookId) ≠ [] := by
      intro hnil
      have : b ∈ db.books.filter (fun b => b.id == bookId) :=
        List.mem_filter.mpr ⟨hbmem, by simp [hbid]⟩
      rw [hnil] at this
      exact List.not_mem_nil b this
    obtain hb | ⟨b', hb'⟩ := hbshort
    · exact absurd hb hbne
    have hrnil : db.reviews.filter
        (fun r => r.book_id == bookId && r.user_id == userId) = [] := by
      refine List.filter_eq_nil_iff.mpr ?_
      intro r hrmem hpr
      simp only [Bool.and_eq_true, beq_iff_eq] at hpr
      exact hnodup ⟨r, hrmem, hpr.1, hpr.2⟩
    refine ⟨⟨nextReviewId db, bookId, userId, rd.review_text, rd.rating⟩,
      ⟨db.books, db.reviews ++
        [⟨nextReviewId db, bookId, userId, rd.review_text, rd.rating⟩],
        db.users⟩, ?_⟩
    simp [createReview, hb', hrnil, scalarOneOrNone]

/-- **C8 witness.** In a database where user 1 already reviewed book 1, a
second review by user 1 is rejected with the 400 conflict, while a review by
user 2 succeeds. -/
theorem c8_duplicate_review_conflict_witness :
    createReview 1 ⟨"what a great ride", 4⟩ 1
        ⟨[⟨1, "T", "A", "G", 2000, none⟩], [⟨1, 1, 1, "great book!", 5⟩], []⟩
      = .err 400 "You have already reviewed this book" ∧
    ∃ rv db', createReview 1 ⟨"what a great ride", 4⟩ 2
        ⟨[⟨1, "T", "A", "G", 2000, none⟩], [⟨1, 1, 1, "great book!", 5⟩], []⟩
      = .ok (rv, db') :=
  ⟨(c8_duplicate_review_conflict
      ⟨[⟨1, "T", "A", "G", 2000, none⟩], [⟨1, 1, 1, "great book!", 5⟩], []⟩ 1 1
      ⟨"what a great ride", 4⟩ (by decide) (by decide) (by decide)).1
      (by decide) (by decide),
    (c8_duplicate_review_conflict
      ⟨[⟨1, "T", "A", "G", 2000, none⟩], [⟨1, 1, 1, "great book!", 5⟩], []⟩ 1 2
      ⟨"what a great ride", 4⟩ (by decide) (by decide) (by decide)).2.2
      ⟨by decide, by decide⟩⟩

/-- **C3 (code bug).** `update_review` and `delete_review` commit
aggregate-changing writes without any cache invalidation (neither the service
nor any caller invokes `invalidate_recommendations_cache`).  Concretely: book
1 is cached in the recommendations cache with average 5; user 1 then updates
their review's rating from 5 to 1 (commit succeeds), yet a subsequent
`get_recommendations` still serves the stale cached average 5 — which differs
from the fresh aggregate (average 1) — and likewise after deleting the
review. -/
theorem c3_review_update_delete_skip_invalidation :
    updateReview 1 ⟨none, some 1⟩ 1
        ⟨[⟨1, "T", "A", "G", 2000, none⟩], [⟨1, 1, 1, "great book!", 5⟩], []⟩
      = .ok (⟨1, 1, 1, "great book!", 1⟩,
          ⟨[⟨1, "T", "A", "G", 2000, none⟩], [⟨1, 1, 1, "great book!", 1⟩], []⟩) ∧
    recQuery ⟨[⟨1, "T", "A", "G", 2000, none⟩], [⟨1, 1, 1, "great book!", 5⟩], []⟩
        none 10 = [⟨1, "T", "A", "G", some 5, 1⟩] ∧
    getRecommendations
        ⟨[⟨1, "T", "A", "G", 2000, none⟩], [⟨1, 1, 1, "great book!", 1⟩], []⟩
        (some ⟨[(cacheKey none 10, [⟨1, "T", "A", "G", some 5, 1⟩])], false⟩)
        none 10
      = .ok (([⟨1, "T", "A", "G", some 5, 1⟩], true),
          some ⟨[(cacheKey none 10, [⟨1, "T", "A", "G", some 5, 1⟩])], false⟩) ∧
    recQuery ⟨[⟨1, "T", "A", "G", 2000, none⟩], [⟨1, 1, 1, "great book!", 1⟩], []⟩
        none 10 = [⟨1, "T", "A", "G", some 1, 1⟩] ∧
    ([⟨1, "T", "A", "G", some 1, 1⟩] : List RecEntry)
      ≠ [⟨1, "T", "A", "G", some 5, 1⟩] ∧
    deleteReview 1 1
        ⟨[⟨1, "T", "A", "G", 2000, none⟩], [⟨1, 1, 1, "great book!", 5⟩], []⟩
      = .ok ⟨[⟨1, "T", "A", "G", 2000, none⟩], [], []⟩ ∧
    getRecommendations ⟨[⟨1, "T", "A", "G", 2000, none⟩], [], []⟩
        (some ⟨[(cacheKey none 10, [⟨1, "T", "A", "G", some 5, 1⟩])], false⟩)
        none 10
      = .ok (([⟨1, "T", "A", "G", some 5, 1⟩], true),
          some ⟨[(cacheKey none 10, [⟨1, "T", "A", "G", some 5, 1⟩])], false⟩) ∧
    recQuery ⟨[⟨1, "T", "A", "G", 2000, none⟩], [], []⟩ none 10
      = [⟨1, "T", "A", "G", none, 0⟩] := by
  have havg5 : avgRating [⟨1, 1, 1, "great book!", 5⟩] = some 5 := by
    norm_num [avgRating]
  have havg1 : avgRating [⟨1, 1, 1, "great book!", 1⟩] = some 1 := by
    norm_num [avgRating]
  refine ⟨by decide, ?_, by decide, ?_, by decide, by decide, by decide, by decide⟩
  · have h_rows : recRows
        ⟨[⟨1, "T", "A", "G", 2000, none⟩], [⟨1, 1, 1, "great book!", 5⟩], []⟩ none
        = [⟨⟨1, "T", "A", "G", 2000, none⟩,
            avgRating [⟨1, 1, 1, "great book!", 5⟩], 1⟩] := rfl
    rw [recQuery, recSorted, h_rows, havg5]
    decide
  · have h_rows : recRows
        ⟨[⟨1, "T", "A", "G", 2000, none⟩], [⟨1, 1, 1, "great book!", 1⟩], []⟩ none
        = [⟨⟨1, "T", "A", "G", 2000, none⟩,
            avgRating [⟨1, 1, 1, "great book!", 1⟩], 1⟩] := rfl
    rw [recQuery, recSorted, h_rows, havg1]
    decide

/-- **C10 counterexample.** The claim fails for a reachable user table: user 1
has username `"alice@x.io"` and user 2 has that same string as email (both
unique-column constraints hold).  Logging in as user 1 with that username and
the correct password does not succeed: the two-column match returns two rows,
`scalar_one_or_none` raises `MultipleResultsFound`, and the exception
propagates out of `authenticate_user` and `login`. -/
theorem c10_counterexample :
    (⟨1, "u1@mail.com", "alice@x.io", "pw1", none, .user, true⟩ : User) ∈
        (⟨[], [],
          [⟨1, "u1@mail.com", "alice@x.io", "pw1", none, .user, true⟩,
            ⟨2, "alice@x.io", "bob", "pw2", none, .user, true⟩]⟩ : DB).users ∧
    (fun p d => p == d) "pw1"
        (User.hashed_password
          ⟨1, "u1@mail.com", "alice@x.io", "pw1", none, .user, true⟩) = true ∧
    authenticateUser (fun p d => p == d) "alice@x.io" "pw1"
        ⟨[], [],
          [⟨1, "u1@mail.com", "alice@x.io", "pw1", none, .user, true⟩,
            ⟨2, "alice@x.io", "bob", "pw2", none, .user, true⟩]⟩
      = .exn "MultipleResultsFound" ∧
    login (fun p d => p == d) "alice@x.io" "pw1"
        ⟨[], [],
          [⟨1, "u1@mail.com", "alice@x.io", "pw1", none, .user, true⟩,
            ⟨2, "alice@x.io", "bob", "pw2", none, .user, true⟩]⟩
      = .exn "MultipleResultsFound" := by
  decide

/-- **C10 (amended).** `authenticate_user` matches its identifier argument
against both the username and the email columns; whenever the identifier
matches exactly one stored user row (which the per-column unique constraints
guarantee unless some user's username equals another user's email),
authentication succeeds with the correct password (and `login` issues the
token for an active user), returns `None` on a failed password check, and
returns `None` when no row matches — in which case `login` raises 401. -/
theorem c10_authenticate_matches_username_or_email
    (verify : String → String → Bool) (db : DB) (ident pw : String) :
    (∀ u, db.users.filter (fun v => v.username == ident || v.email == ident) = [u] →
      (verify pw u.hashed_password = true →
        authenticateUser verify ident pw db = .ok (some u) ∧
        (u.is_active = true →
          login verify ident pw db = .ok ⟨toString u.id, u.username, u.role⟩)) ∧
      (verify pw u.hashed_password = false →
        authenticateUser verify ident pw db = .ok none ∧
        login verify ident pw db = .err 401 "Incorrect username or password")) ∧
    (db.users.filter (fun v => v.username == ident || v.email == ident) = [] →
      authenticateUser verify ident pw db = .ok none ∧
      login verify ident pw db = .err 401 "Incorrect username or password") := by
  constructor
  · intro u hu
    constructor
    · intro hv
      constructor
      · simp [authenticateUser, scalarOneOrNone, hu, hv]
      · intro hact
        simp [login, authenticateUser, scalarOneOrNone, hu, hv, hact]
    · intro hv
      constructor
      · simp [authenticateUser, scalarOneOrNone, hu, hv]
      · simp [login, authenticateUser, scalarOneOrNone, hu, hv]
  · intro h
    constructor
    · simp [authenticateUser, scalarOneOrNone, h]
    · simp [login, authenticateUser, scalarOneOrNone, h]

/-- **C10 witness.** A single stored user logs in successfully with the
username and with the email (correct password), and authentication returns
`None` on a wrong password. -/
theorem c10_authenticate_matches_username_or_email_witness :
    authenticateUser (fun p d => p == d) "alice" "pw12345678"
        ⟨[], [], [⟨1, "a@b.c", "alice", "pw12345678", none, .user, true⟩]⟩
      = .ok (some ⟨1, "a@b.c", "alice", "pw12345678", none, .user, true⟩) ∧
    authenticateUser (fun p d => p == d) "a@b.c" "pw12345678"
        ⟨[], [], [⟨1, "a@b.c", "alice", "pw12345678", none, .user, true⟩]⟩
      = .ok (some ⟨1, "a@b.c", "alice", "pw12345678", none, .user, true⟩) ∧
    authenticateUser (fun p d => p == d) "alice" "wrongpass"
        ⟨[], [], [⟨1, "a@b.c", "alice", "pw12345678", none, .user, true⟩]⟩
      = .ok none :=
  ⟨((c10_authenticate_matches_username_or_email (fun p d => p == d)
      ⟨[], [], [⟨1, "a@b.c", "alice", "pw12345678", none, .user, true⟩]⟩
      "alice" "pw12345678").1
      ⟨1, "a@b.c", "alice", "pw12345678", none, .user, true⟩ (by decide)).1
      (by decide) |>.1,
    ((c10_authenticate_matches_username_or_email (fun p d => p == d)
      ⟨[], [], [⟨1, "a@b.c", "alice", "pw12345678", none, .user, true⟩]⟩
      "a@b.c" "pw12345678").1
      ⟨1, "a@b.c", "alice", "pw12345678", none, .user, true⟩ (by decide)).1
      (by decide) |>.1,
    ((c10_authenticate_matches_username_or_email (fun p d => p == d)
      ⟨[], [], [⟨1, "a@b.c", "alice", "pw12345678", none, .user, true⟩]⟩
      "alice" "wrongpass").1
      ⟨1, "a@b.c", "alice", "pw12345678", none, .user, true⟩ (by decide)).2
      (by decide) |>.1⟩

/-- **C1 witness.** Concrete successful book create (cache connection broken,
so invalidation degrades to a no-op): in the returned state a read of the
stored `recommendations:*` key still misses. -/
theorem c1_mutations_clear_recommendation_keys_witness :
    createBookEndpoint ⟨"T", "A", "G", 2000⟩ ⟨[], [], []⟩
        (some ⟨[("recommendations:genre=None:limit=10", [])], true⟩)
      = .ok (⟨1, "T", "A", "G", 2000, none⟩,
          ⟨[⟨1, "T", "A", "G", 2000, none⟩], [], []⟩,
          some ⟨[("recommendations:genre=None:limit=10", [])], true⟩) ∧
    isRecKey "recommendations:genre=None:limit=10" = true ∧
    cacheGet (some ⟨[("recommendations:genre=None:limit=10", [])], true⟩)
        "recommendations:genre=None:limit=10" = .ok none :=
  ⟨by decide, by decide,
    (c1_mutations_clear_recommendation_keys ⟨[], [], []⟩
        (some ⟨[("recommendations:genre=None:limit=10", [])], true⟩)).1
      ⟨"T", "A", "G", 2000⟩
      (⟨1, "T", "A", "G", 2000, none⟩,
        ⟨[⟨1, "T", "A", "G", 2000, none⟩], [], []⟩,
        some ⟨[("recommendations:genre=None:limit=10", [])], true⟩)
      (by decide) "recommendations:genre=None:limit=10" (by decide)⟩
